import Mathlib

/-!
Shallow embedding of the session/connection layer of `sengledwifipy`
(files `sengledwifilogin.py`, `sengledwifiapi.py`, `sengledwifimqtt.py`,
`helpers.py`, `const.py`), together with theorems settling the spec claims.

Python values that flow through the code are modelled by an explicit `Json`
type; Python exceptions (AttributeError on a missing method, TypeError from
`int(None)`, ValueError from `int` on a non-numeric string, IndexError from
list indexing) are modelled by `Except PyErr`.  `async` plays no role in the
claims (every awaited call is a suspend point but the functions are
sequential), so coroutines are embedded as ordinary functions with the
network responses passed in as oracle arguments.
-/

namespace SengledWifipy

/-- JSON values as produced by `resp.json()` (Python objects after decode). -/
inductive Json where
  | jnull
  | jbool (b : Bool)
  | jnum (n : Int)
  | jstr (s : String)
  | jarr (xs : List Json)
  | jobj (kvs : List (String × Json))

/-- Python exceptions that the embedded fragments can raise. -/
inductive PyErr where
  | attrError
  | typeError
  | valueError
  | indexError
deriving DecidableEq, Repr

/-- Python truthiness (`if resp:`) for decoded JSON values. -/
def Json.truthy : Json → Bool
  | .jnull => false
  | .jbool b => b
  | .jnum n => n != 0
  | .jstr s => s != ""
  | .jarr xs => !xs.isEmpty
  | .jobj kvs => !kvs.isEmpty

/-- Lookup in a Python dict rendered as an insertion-ordered association
list (first match wins; the insert operation keeps keys unique). -/
def dictGet {α : Type} (l : List (String × α)) (k : String) : Option α :=
  (l.find? (fun p => p.1 == k)).map (fun p => p.2)

/-- `d[k] = v` on a Python dict: replace in place if the key is present,
append otherwise (Python dicts preserve insertion order). -/
def dictInsert {α : Type} (l : List (String × α)) (k : String) (v : α) :
    List (String × α) :=
  match l with
  | [] => [(k, v)]
  | p :: rest =>
    if p.1 == k then (k, v) :: rest else p :: dictInsert rest k v

/-- `dict.update(other)` = insert the pairs of `other` left to right. -/
def dictUpdate {α : Type} (l other : List (String × α)) :
    List (String × α) :=
  other.foldl (fun acc p => dictInsert acc p.1 p.2) l

/-- The value bound to `resp` after `try: resp = await resp.json() except ...`:
either the decoded JSON, or — when decoding raised and the handler only
logged — still the raw `aiohttp.ClientResponse` object. -/
inductive RespVal where
  | raw
  | json (j : Json)

/-- Truthiness of `resp` after the try block: a raw `ClientResponse` has no
`__bool__`, hence is truthy; decoded JSON follows Python truthiness. -/
def RespVal.truthy : RespVal → Bool
  | .raw => true
  | .json j => j.truthy

/-- `resp.get(k)`: a dict returns the value or `None` (here `none`); a raw
`ClientResponse`, or any non-dict JSON value, has no `get` method, so the
call raises `AttributeError`. -/
def RespVal.get (v : RespVal) (k : String) : Except PyErr (Option Json) :=
  match v with
  | .raw => .error .attrError
  | .json (.jobj kvs) => .ok (dictGet kvs k)
  | .json _ => .error .attrError

/-- Python `int(x)` on the result of `dict.get`: `int(None)` raises
`TypeError`, strings are parsed (ValueError on failure), bools coerce to
0/1, numbers pass through, containers raise `TypeError`. -/
def pyInt : Option Json → Except PyErr Int
  | none => .error .typeError
  | some .jnull => .error .typeError
  | some (.jbool b) => .ok (if b then 1 else 0)
  | some (.jnum n) => .ok n
  | some (.jstr s) =>
    match s.toInt? with
    | some n => .ok n
    | none => .error .valueError
  | some (.jarr _) => .error .typeError
  | some (.jobj _) => .error .typeError

/-- `int(resp.get(k))`. -/
def RespVal.getInt (v : RespVal) (k : String) : Except PyErr Int :=
  match v.get k with
  | .error e => .error e
  | .ok o => pyInt o

/-- `SENGLED_ENDPOINTS` from `const.py`: the initial, module-level endpoint
dict.  Every `SengledLogin.__init__` binds `self._urls` to this very object
(no copy is taken), so all instances alias one shared dict. -/
def SENGLED_ENDPOINTS : List (String × Json) :=
  [("login", .jstr "https://ucenter.cloud.sengled.com/user/app/customer/v3/AuthenCross.json"),
   ("validSession", .jstr "https://ucenter.cloud.sengled.com/user/app/customer/v2/isSessionTimeout.json"),
   ("serverDetails", .jstr "https://life2.cloud.sengled.com/life2/server/getServerInfo.json")]

/-- Abstract state of a `SengledLogin` object, restricted to the fields the
claims observe.  `loginTimestamp` is `stats["login_timestamp"]` in epoch
seconds, `apiCalls` is `stats["api_calls"]`, `loginSuccessful` models the
`status` dict (`none` = key absent, i.e. fresh/cleared status),
`sessionIsFresh` records whether `_session` is a newly created empty
`ClientSession` (as after `_create_session`). -/
structure LoginState where
  loginTimestamp : Int
  apiCalls : Nat
  loginSuccessful : Option Bool
  cookieFileExists : Bool
  sessionIsFresh : Bool
  urls : List (String × Json)
  customerId : Option String

/-- `SengledLogin.reset`: `close()` the connector, drop the session, set
`status = {}`, `delete_cookie()` (a no-op when the file is absent), then
`_create_session()` builds a fresh empty session.  `stats`, `_urls` and
`_customer_id` are untouched. -/
def reset (s : LoginState) : LoginState :=
  { s with loginSuccessful := none, cookieFileExists := false, sessionIsFresh := true }

/-- The value bound to the response variable after the
`try: ... = await ....json() except ...: log` block, given the decode
oracle (`none` = the decode raised, the handler only logged, and the
variable still holds the raw `ClientResponse`). -/
def respOf (decoded : Option Json) : RespVal :=
  match decoded with
  | some j => .json j
  | none => .raw

/-- `SengledLogin.valid_login`.  `now` is `datetime.now()` in epoch seconds;
`decoded` is the oracle for `await resp.json()` on the `validSession` POST
(`none` = the decode raised `JSONDecodeError`/`ContentTypeError`, which the
`except` clause only logs, leaving `resp` bound to the raw response).
Returns the boolean result paired with the successor state, or the Python
exception that escapes the function. -/
def valid_login (now : Int) (decoded : Option Json) (s : LoginState) :
    Except PyErr (Bool × LoginState) :=
  if now - s.loginTimestamp < 86400 && s.cookieFileExists then
    let resp : RespVal := respOf decoded
    if resp.truthy then
      match resp.getInt "messageCode" with
      | .error e => .error e
      | .ok n =>
        if n = 200 then .ok (true, { s with apiCalls := s.apiCalls + 1 })
        else .ok (false, reset s)
    else .ok (false, reset s)
  else .ok (false, reset s)

/-- `SengledLogin._get_server_info`.  `decoded` is the oracle for
`await post_resp.json()` on the `serverDetails` POST (`none` = decode
raised and was only logged, leaving `post_resp` the raw response).  On
`messageCode == 200` the shared endpoint dict is updated in place with
`appserver`/`mqtt`/`mqttport` (missing response keys store Python `None`).
Returns the updated endpoint dict, or the escaping exception. -/
def get_server_info (decoded : Option Json) (urls : List (String × Json)) :
    Except PyErr (List (String × Json)) :=
  let resp : RespVal := respOf decoded
  match resp.getInt "messageCode" with
  | .error e => .error e
  | .ok n =>
    if n = 200 then
      let getOr (k : String) : Json :=
        match resp.get k with
        | .ok (some v) => v
        | _ => .jnull
      .ok (dictUpdate urls
        [("appserver", getOr "appServerAddr"),
         ("mqtt", getOr "inceptionAddr"),
         ("mqttport", getOr "mqttSslPort")])
    else .ok urls

/-! ## HTTP request wrapper (`SengledWifiAPI._static_request`, `errors.py`) -/

/-- The typed errors `_static_request` can raise or propagate:
`loginError` = `SengledWifipyLoginError` (401), `tooManyRequests` =
`SengledWifipyTooManyRequestsError` (429), `connectionError` = a
transport-level `aiohttp.ClientConnectionError`. -/
inductive ApiError where
  | loginError
  | tooManyRequests
  | connectionError
deriving DecidableEq, Repr

/-- The body of `_static_request` after the HTTP round-trip returned a
response with the given status code: increments `stats["api_calls"]`, then
classifies the status.  401 sets `status["login_successful"] = False` and
raises `SengledWifipyLoginError`; 429 raises
`SengledWifipyTooManyRequestsError`; any other status `>= 400` logs and
returns `None`; anything below 400 returns the response object unchanged
(modelled by `some status`). -/
def staticRequestOnce (status : Nat) (st : LoginState) :
    Except ApiError (Option Nat) × LoginState :=
  let st := { st with apiCalls := st.apiCalls + 1 }
  if status = 401 then
    (.error .loginError, { st with loginSuccessful := some false })
  else if status = 429 then
    (.error .tooManyRequests, st)
  else if 400 ≤ status then
    (.ok none, st)
  else
    (.ok (some status), st)

/-- One scripted attempt of the wrapped call: either the transport raises
`ClientConnectionError` before any response (state untouched), or a
response with the given status code arrives and is classified. -/
inductive Attempt where
  | transportFail
  | http (status : Nat)
deriving DecidableEq, Repr

/-- Result and successor state of a single scripted attempt. -/
def attemptOnce (a : Attempt) (st : LoginState) :
    Except ApiError (Option Nat) × LoginState :=
  match a with
  | .transportFail => (.error .connectionError, st)
  | .http status => staticRequestOnce status st

/-- The exception tuple of the `backoff.on_exception` decorator on
`_static_request`: `SengledWifipyTooManyRequestsError`,
`SengledWifipyConnectionError` and `aiohttp.ClientConnectionError` are
retried; `SengledWifipyLoginError` is not listed, so it propagates. -/
def ApiError.retryable : ApiError → Bool
  | .loginError => false
  | .tooManyRequests => true
  | .connectionError => true

/-- `backoff.on_exception(backoff.expo, ..., max_time=60, max_tries=5)`
around the scripted call: run one attempt; a normal return propagates
immediately, a retryable exception is retried while tries remain, any
other exception propagates.  `triesLeft` counts calls still allowed
(`max_tries` bounds total calls); the script lists the outcome of each
successive call, `none` meaning the script was too short to decide the
run.  The `max_time=60` cap never fires within 5 expo backoff waits
(1+2+4+8 = 15s), so it is not modelled.  The result carries the number of
attempts actually made. -/
def backoffRun : Nat → List Attempt → LoginState →
    Option (Except ApiError (Option Nat) × LoginState × Nat)
  | _, [], _ => none
  | 0, _ :: _, _ => none
  | triesLeft + 1, a :: rest, st =>
    match attemptOnce a st with
    | (.ok v, st') => some (.ok v, st', 1)
    | (.error e, st') =>
      if e.retryable && triesLeft != 0 then
        match backoffRun triesLeft rest st' with
        | some (r, st'', n) => some (r, st'', n + 1)
        | none => none
      else some (.error e, st', 1)

/-- `_static_request` as observed by callers: the backoff wrapper with
`max_tries = 5` around the classified call. -/
def staticRequest (script : List Attempt) (st : LoginState) :
    Option (Except ApiError (Option Nat) × LoginState × Nat) :=
  backoffRun 5 script st

/-! ## Device directory (`SengledWifiAPI.get_devices`) -/

/-- One element of the `deviceList` the REST call returns. -/
structure DeviceRecord where
  deviceUuid : String
  category : String
deriving DecidableEq, Repr

/-- A value stored in the class-level `SengledWifiAPI.devices` dict:
either a filtered device list, or — in the `response`-falsy branch — a
reference to the class-level `devices` dict itself (`selfRef` marks the
self-referential aliasing; Python stores the very dict object, so the
value is shared by all accounts and mutates with the cache). -/
inductive CacheEntry where
  | list (ds : List DeviceRecord)
  | selfRef
deriving DecidableEq, Repr

/-- The filter `get_devices` applies to `deviceList`: keep `wifielement`
category items, restricted to `entity_ids` when given. -/
def deviceFilter (dl : List DeviceRecord) (entity_ids : Option (List String)) :
    List DeviceRecord :=
  dl.filter (fun it =>
    it.category == "wifielement" &&
      (match entity_ids with
       | none => true
       | some ids => ids.contains it.deviceUuid))

/-- The cache-update step of `SengledWifiAPI.get_devices` once the wrapped
request finished: `resp` is `none` when `_static_request` returned `None`
(status `>= 400` other than 401/429), otherwise the decoded `deviceList`.
`devices[login.email]` is assigned the filtered list, or — when `resp` is
falsy — the class dict `SengledWifiAPI.devices` itself; the stored entry
is then returned. -/
def get_devices (resp : Option (List DeviceRecord))
    (entity_ids : Option (List String))
    (cache : List (String × CacheEntry)) (email : String) :
    List (String × CacheEntry) × CacheEntry :=
  match resp with
  | some dl =>
    let entry := CacheEntry.list (deviceFilter dl entity_ids)
    (dictInsert cache email entry, entry)
  | none =>
    (dictInsert cache email .selfRef, .selfRef)

/-! ## MQTT connection manager (`SengledWifiMQTT`) -/

/-- A device as the MQTT layer sees it: only `deviceUuid` is read. -/
structure MqttDevice where
  deviceUuid : String
deriving DecidableEq, Repr

/-- The fields of a `SengledWifiMQTT` object that `on_connect` and
`on_message` observe or mutate: `_status`, the device list stored by
`async_connect`, and whether the optional callbacks were registered at
construction. -/
structure MqttState where
  connected : Bool
  devices : List MqttDevice
  openCallbackRegistered : Bool
  msgCallbackRegistered : Bool
deriving DecidableEq, Repr

/-- What a run of `SengledWifiMQTT.on_connect` did: the successor object
state, the `(topic, qos)` pairs passed to `mqtt_client.subscribe`, and
whether `open_callback` was handed to `asyncio.run_coroutine_threadsafe`
on the owning loop. -/
structure OnConnectResult where
  state : MqttState
  subscriptions : List (String × Nat)
  openCallbackScheduled : Bool
deriving DecidableEq, Repr

/-- `SengledWifiMQTT.on_connect` with reason code `rc`: on `rc == 0` it
subscribes to `wifielement/{deviceUuid}/status` at QoS 2 for every stored
device, sets `_status = True`, and schedules `open_callback` when one is
registered; on any other code it only logs. -/
def on_connect (rc : Nat) (st : MqttState) : OnConnectResult :=
  if rc = 0 then
    { state := { st with connected := true },
      subscriptions :=
        st.devices.map (fun d => ("wifielement/" ++ d.deviceUuid ++ "/status", 2)),
      openCallbackScheduled := st.openCallbackRegistered }
  else
    { state := st, subscriptions := [], openCallbackScheduled := false }

/-- One element of the decoded JSON-array payload of a status message, as
accessed by `on_message` (`attrs["type"]`, `attrs["value"]`,
`...[0]["time"]`). -/
structure MsgElem where
  type : String
  value : String
  time : Int
deriving DecidableEq, Repr

/-- The `device` dict `on_message` builds from a status message. -/
structure ParsedEvent where
  id : String
  time : Int
  attributes : List (String × String)
deriving DecidableEq, Repr

/-- Splitting a character list at a separator, Python `str.split(sep)`
style: the result is never empty, adjacent separators yield empty
segments, and splitting the empty string yields `[[]]`. -/
def splitCharList (sep : Char) : List Char → List (List Char)
  | [] => [[]]
  | c :: cs =>
    match splitCharList sep cs with
    | [] => [[c]]
    | seg :: rest =>
      if c = sep then [] :: seg :: rest else (c :: seg) :: rest

/-- Python `topic.split("/")` for the one-character separator the code
uses. -/
def pySplit (s : String) (sep : Char) : List String :=
  (splitCharList sep s.data).map (fun l => String.mk l)

/-- `SengledWifiMQTT.on_message` on a message with the given topic and a
payload that decodes to the given element list.  A topic whose first
`/`-segment is not `wifielement` is rejected (`ok none`: no parse, no
callback).  Otherwise the device id is the topic's second segment
(IndexError when the topic has no second segment), the event time is the
first payload element's `time` (IndexError on an empty array), and the
attributes dict maps each element's `type` to its `value`, later elements
overwriting earlier ones.  `ok (some (ev, b))` reports the parsed event
and whether `msg_callback` was scheduled (`b` = a callback was
registered). -/
def on_message (topic : String) (payload : List MsgElem) (st : MqttState) :
    Except PyErr (Option (ParsedEvent × Bool)) :=
  let segs := pySplit topic '/'
  if segs.getD 0 "" != "wifielement" then .ok none
  else
    match segs.get? 1 with
    | none => .error .indexError
    | some devId =>
      match payload.head? with
      | none => .error .indexError
      | some first =>
        .ok (some
          ({ id := devId,
             time := first.time,
             attributes :=
               payload.foldl (fun acc e => dictInsert acc e.type e.value) [] },
           st.msgCallbackRegistered))

/-! ## Device control (`SengledWifiAPI.set_device_state`) -/

/-- Python `round` (banker's rounding, round-half-to-even) applied to the
exact rational `num / den`, for `den > 0`.  `set_device_state` computes
`round((brightness / 255) * 100)` and `round((color_temperature / 6500) *
100)` in floats; the float products are exact enough that they agree with
the rational value at every input the claims touch. -/
def pyRoundRat (num : Int) (den : Int) : Int :=
  let q := num / den
  let r := num % den
  if 2 * r < den then q
  else if 2 * r > den then q + 1
  else if q % 2 = 0 then q else q + 1

/-- `convert_color_HA` from `set_device_state`: strip spaces and
parentheses, turn commas into colons. -/
def convert_color_HA (hacolor : String) : String :=
  (((hacolor.replace " " "").replace "," ":").replace "(" "").replace ")" ""

/-- One entry of the JSON-array command payload published to
`wifielement/{entity_id}/update`. -/
structure Command where
  dn : String
  type : String
  value : String
  time : String
deriving DecidableEq, Repr

/-- The payload-construction part of `SengledWifiAPI.set_device_state`:
`now` is `int(time.time())`; `timev = str(now - 1577858400)` is shared by
all entries.  Each present argument contributes one entry, in the fixed
order switch, brightness, color, colorTemperature, plus the constant
`color` entry `255:45:41` that accompanies `color_temperature`.  Returns
the publish topic and the command list. -/
def set_device_state (entity_id : String) (power_on : Option Bool)
    (brightness : Option Int) (color : Option String)
    (color_temperature : Option Int) (now : Int) :
    String × List Command :=
  let timev := toString (now - 1577858400)
  let opts : List (Option (String × String)) :=
    [power_on.map (fun b => (if b then "1" else "0", "switch")),
     brightness.map (fun b => (toString (pyRoundRat (b * 100) 255), "brightness")),
     color.map (fun c => (convert_color_HA c, "color")),
     color_temperature.map
       (fun ct => (toString (pyRoundRat (ct * 100) 6500), "colorTemperature")),
     color_temperature.map (fun _ => ("255:45:41", "color"))]
  ("wifielement/" ++ entity_id ++ "/update",
   opts.filterMap (fun o =>
     o.map (fun vn => { dn := entity_id, type := vn.2, value := vn.1, time := timev })))

/-! ## Process-level endpoint-map model (for the `appserver`/`mqtt` invariant)

`SengledLogin.__init__` executes `self._urls: dict[str, str] =
SENGLED_ENDPOINTS` — a reference to the module-level dict in `const.py`,
not a copy — and `_get_server_info` mutates that dict in place with
`self._urls.update({...})`.  Every instance in the process therefore
aliases one shared endpoint dict.  The model below runs a trace of
instance creations and login attempts against that shared dict. -/

/-- `true` iff the dict has the key. -/
def dictHasKey {α : Type} (l : List (String × α)) (k : String) : Bool :=
  (dictGet l k).isSome

/-- Events of the process-level trace: creating a `SengledLogin` instance,
a login attempt whose credential POST returned `ret == 0` (carrying the
oracle for the subsequent `serverDetails` decode), and a login attempt
that failed (`ret != 0`, which leaves all state unchanged). -/
inductive Event where
  | create
  | loginSuccess (idx : Nat) (decoded : Option Json)
  | loginFail (idx : Nat)

/-- Process state: the single shared endpoint dict, and per instance
(in creation order) whether a successful login has completed for it. -/
structure World where
  endpoints : List (String × Json)
  loggedIn : List Bool

/-- One trace step.  `create` appends a fresh instance whose `_urls`
aliases the shared dict.  `loginSuccess i d` marks instance `i` as logged
in and runs `_get_server_info` against the shared dict (an escaping
exception there leaves the dict unchanged).  `loginFail` changes
nothing. -/
def step (w : World) (e : Event) : World :=
  match e with
  | .create => { w with loggedIn := w.loggedIn ++ [false] }
  | .loginFail _ => w
  | .loginSuccess i d =>
    let w := { w with loggedIn := w.loggedIn.set i true }
    match get_server_info d w.endpoints with
    | .ok urls => { w with endpoints := urls }
    | .error _ => w

/-- Run a trace from process start: the shared dict is
`SENGLED_ENDPOINTS`, no instances exist. -/
def run (es : List Event) : World :=
  es.foldl step { endpoints := SENGLED_ENDPOINTS, loggedIn := [] }

/-- The endpoint map instance `i` observes: by the aliasing above, it is
the shared dict, whichever instance `i` is. -/
def instanceUrls (w : World) (_ : Nat) : List (String × Json) :=
  w.endpoints

/-- `true` iff the trace contains no `ret == 0` login attempt. -/
def noLoginSuccess (es : List Event) : Bool :=
  es.all (fun e =>
    match e with
    | .loginSuccess _ _ => false
    | _ => true)

/-! ## Shared helper lemmas and sample values -/

/-- Unfolding `dictGet` one entry at a time. -/
theorem dictGet_cons {α : Type} (p : String × α) (rest : List (String × α)) (k : String) :
    dictGet (p :: rest) k = if p.1 = k then some p.2 else dictGet rest k := by
  by_cases h : p.1 = k
  · rw [if_pos h]
    unfold dictGet
    rw [List.find?_cons_of_pos _ (by simpa using h)]
    rfl
  · rw [if_neg h]
    unfold dictGet
    rw [List.find?_cons_of_neg _ (by simpa using h)]

/-- Key lookup after a dict store: the stored key reads back the stored
value, every other key is unaffected. -/
theorem dictGet_dictInsert {α : Type} (l : List (String × α)) (k k' : String) (v : α) :
    dictGet (dictInsert l k v) k' = if k' = k then some v else dictGet l k' := by
  induction l with
  | nil =>
    by_cases h : k' = k
    · subst h
      simp [dictInsert, dictGet_cons]
    · have h2 : ¬ k = k' := fun e => h e.symm
      simp [dictInsert, dictGet_cons, dictGet, h, h2]
  | cons p rest ih =>
    by_cases hp : p.1 = k
    · have hb : (p.1 == k) = true := by simpa using hp
      simp only [dictInsert, hb, if_true]
      rw [dictGet_cons, dictGet_cons]
      by_cases h : k' = k
      · simp [h]
      · have h2 : ¬ k = k' := fun e => h e.symm
        simp [h, h2, hp]
    · have hb : (p.1 == k) = false := by simpa using hp
      simp only [dictInsert, hb, Bool.false_eq_true, if_false]
      rw [dictGet_cons, dictGet_cons]
      by_cases hq : p.1 = k'
      · have hk : ¬ k' = k := fun e => hp (hq.trans e)
        simp [hq, hk]
      · simp [hq, ih]

/-- A concrete login state with a recent login and an existing cookie
file, used to instantiate theorems with hypotheses. -/
def st0 : LoginState :=
  { loginTimestamp := 0, apiCalls := 0, loginSuccessful := some true,
    cookieFileExists := true, sessionIsFresh := false,
    urls := SENGLED_ENDPOINTS, customerId := none }

/-- A concrete MQTT state: two devices stored, both callbacks registered,
not yet connected. -/
def mqttSt0 : MqttState :=
  { connected := false, devices := [⟨"D1"⟩, ⟨"D2"⟩],
    openCallbackRegistered := true, msgCallbackRegistered := true }

/-! ## C8 — `reset` is idempotent -/

/-- C8: `reset` is idempotent — running it twice leaves the login state
exactly as running it once — and the state after one run has the status
flags cleared, the cookie file absent, and a fresh empty session in
place. -/
theorem c8_reset_idempotent (s : LoginState) :
    reset (reset s) = reset s ∧
    (reset s).loginSuccessful = none ∧
    (reset s).cookieFileExists = false ∧
    (reset s).sessionIsFresh = true := by
  simp [reset]

/-! ## C1 — decode failures during `valid_login` / `_get_server_info` -/

/-- C1 (claim is the documented intent; the code deviates): when the
`validSession` or `serverDetails` response body fails JSON decoding, the
`except` handler only logs, the response variable still holds the raw
`ClientResponse`, and the subsequent `resp.get("messageCode")` raises
`AttributeError` which escapes to the caller — `valid_login` does not
return `False` and `login` does not merely leave the endpoint map stale;
both raise. -/
theorem c1_decode_failure_raises :
    valid_login 3600 none st0 = .error .attrError ∧
    get_server_info none SENGLED_ENDPOINTS = .error .attrError := by
  constructor <;> rfl

/-! ## C10 — `get_devices` when the wrapped request returns `None` -/

/-- C10: when `_static_request` yields no response (`None`), `get_devices`
overwrites the per-account cache entry `devices[login.email]` with the
class-level `devices` dict itself (the self-referential value, shared by
all accounts) and returns that stored entry to the caller. -/
theorem c10_get_devices_none (cache : List (String × CacheEntry))
    (entity_ids : Option (List String)) (email : String) :
    get_devices none entity_ids cache email =
      (dictInsert cache email .selfRef, .selfRef) ∧
    dictGet (get_devices none entity_ids cache email).1 email = some .selfRef := by
  refine ⟨rfl, ?_⟩
  simp [get_devices, dictGet_dictInsert]

/-! ## C7 — `set_device_state` payload for power-on + brightness 128 -/

/-- C7: `set_device_state(entity_id="D1", power_on=True, brightness=128)`
with color and color temperature absent builds exactly two command
entries sharing the single timestamp string `str(now - 1577858400)` —
`{dn:"D1", type:"switch", value:"1"}` and `{dn:"D1", type:"brightness",
value:"50"}` (`round(128/255*100) = 50`) — and publishes them to topic
`wifielement/D1/update`. -/
theorem c7_set_device_state (now : Int) :
    set_device_state "D1" (some true) (some 128) none none now =
      ("wifielement/D1/update",
       [{ dn := "D1", type := "switch", value := "1",
          time := toString (now - 1577858400) },
        { dn := "D1", type := "brightness", value := "50",
          time := toString (now - 1577858400) }]) := by
  rfl

/-! ## C2 — status-code classification in `_static_request` -/

/-- C2 counterexample: at status 500 (a status `>= 400` other than
401/429) `_static_request` does not produce any error — it logs and
returns `None` — contradicting the claim that such statuses produce a
connection/generic API error. -/
theorem c2_counterexample :
    (staticRequestOnce 500 st0).1 = .ok none ∧
    (staticRequestOnce 500 st0).1 ≠ .error .loginError ∧
    (staticRequestOnce 500 st0).1 ≠ .error .tooManyRequests ∧
    (staticRequestOnce 500 st0).1 ≠ .error .connectionError := by
  refine ⟨rfl, ?_, ?_, ?_⟩ <;> intro h <;> exact Except.noConfusion h

/-- C2 amended: 401 raises the login error and sets
`status["login_successful"] = False`; 429 raises the rate-limit error;
any other status `>= 400` logs and returns `None` (no error); any status
below 400 returns the response unchanged.  All four branches first count
the API call. -/
theorem c2_status_classification (status : Nat) (st : LoginState) :
    (status = 401 →
      (staticRequestOnce status st).1 = .error .loginError ∧
      (staticRequestOnce status st).2.loginSuccessful = some false) ∧
    (status = 429 → (staticRequestOnce status st).1 = .error .tooManyRequests) ∧
    (status ≠ 401 → status ≠ 429 → 400 ≤ status →
      (staticRequestOnce status st).1 = .ok none) ∧
    (status < 400 → (staticRequestOnce status st).1 = .ok (some status)) ∧
    (staticRequestOnce status st).2.apiCalls = st.apiCalls + 1 := by
  refine ⟨?_, ?_, ?_, ?_, ?_⟩
  · intro h; subst h; exact ⟨rfl, rfl⟩
  · intro h; subst h; rfl
  · intro h1 h2 h3
    simp [staticRequestOnce, h1, h2, h3]
  · intro h
    have h1 : status ≠ 401 := by omega
    have h2 : status ≠ 429 := by omega
    have h3 : ¬ 400 ≤ status := by omega
    simp [staticRequestOnce, h1, h2, h3]
  · by_cases h1 : status = 401
    · subst h1; rfl
    · by_cases h2 : status = 429
      · subst h2; rfl
      · by_cases h3 : 400 ≤ status <;> simp [staticRequestOnce, h1, h2, h3]

/-- Witness for C2: the amended classification evaluated at statuses 401,
429, 500 and 200 on a concrete login state. -/
theorem c2_status_classification_witness :
    (staticRequestOnce 401 st0).1 = .error .loginError ∧
    (staticRequestOnce 401 st0).2.loginSuccessful = some false ∧
    (staticRequestOnce 429 st0).1 = .error .tooManyRequests ∧
    (staticRequestOnce 500 st0).1 = .ok none ∧
    (staticRequestOnce 200 st0).1 = .ok (some 200) :=
  ⟨((c2_status_classification 401 st0).1 rfl).1,
   ((c2_status_classification 401 st0).1 rfl).2,
   (c2_status_classification 429 st0).2.1 rfl,
   (c2_status_classification 500 st0).2.2.1 (by omega) (by omega) (by omega),
   (c2_status_classification 200 st0).2.2.2.1 (by omega)⟩

/-! ## C3 — the `valid_login` contract -/

/-- The decoded `validSession` body signals a valid session: a JSON
object whose `messageCode` entry `int()`-coerces to 200 (the code applies
`int(...)` to the value, so both the number `200` and the string `"200"`
qualify). -/
def validSession200 (decoded : Option Json) : Prop :=
  ∃ kvs, decoded = some (.jobj kvs) ∧ pyInt (dictGet kvs "messageCode") = .ok 200

/-- `validSession200` in terms of the response value the code actually
inspects. -/
theorem validSession200_iff (decoded : Option Json) :
    validSession200 decoded ↔
      ((respOf decoded).truthy = true ∧
       (respOf decoded).getInt "messageCode" = .ok 200) := by
  constructor
  · rintro ⟨kvs, rfl, hpy⟩
    have hne : kvs ≠ [] := by
      intro h
      subst h
      simp [dictGet, pyInt] at hpy
    refine ⟨?_, ?_⟩
    · simp [respOf, RespVal.truthy, Json.truthy, hne]
    · simp [respOf, RespVal.getInt, RespVal.get, hpy]
  · rintro ⟨htr, hget⟩
    cases decoded with
    | none => simp [respOf, RespVal.getInt, RespVal.get] at hget
    | some j =>
      cases j with
      | jobj kvs =>
        refine ⟨kvs, rfl, ?_⟩
        simpa [respOf, RespVal.getInt, RespVal.get] using hget
      | jnull => simp [respOf, RespVal.getInt, RespVal.get] at hget
      | jbool b => simp [respOf, RespVal.getInt, RespVal.get] at hget
      | jnum n => simp [respOf, RespVal.getInt, RespVal.get] at hget
      | jstr s => simp [respOf, RespVal.getInt, RespVal.get] at hget
      | jarr xs => simp [respOf, RespVal.getInt, RespVal.get] at hget

/-- C3: `valid_login` returns `True` exactly when the last login is less
than 24 hours old, the cookie file exists, and the `validSession` POST
decodes to a body whose `messageCode` is 200; and every run that returns
`False` has first passed through `reset` (connector closed, status
cleared, cookie file deleted, fresh empty session). -/
theorem c3_valid_login_spec (now : Int) (decoded : Option Json) (s : LoginState) :
    ((∃ s', valid_login now decoded s = .ok (true, s')) ↔
      (now - s.loginTimestamp < 86400 ∧ s.cookieFileExists = true ∧
        validSession200 decoded)) ∧
    (∀ s', valid_login now decoded s = .ok (false, s') → s' = reset s) := by
  by_cases h1 : now - s.loginTimestamp < 86400
  · by_cases h2 : s.cookieFileExists
    · -- guard holds: the validation POST happens
      cases htr : (respOf decoded).truthy
      · -- falsy decoded body: fall through to reset
        have hv : valid_login now decoded s = .ok (false, reset s) := by
          simp [valid_login, h1, h2, htr]
        constructor
        · rw [hv]
          simp only [validSession200_iff, htr]
          constructor
          · rintro ⟨s', hs'⟩
            exact absurd ((Prod.mk.injEq _ _ _ _).mp (Except.ok.inj hs')).1 (by simp)
          · rintro ⟨-, -, hfalse, -⟩
            exact Bool.noConfusion hfalse
        · intro s' hs'
          rw [hv] at hs'
          exact ((Prod.mk.injEq _ _ _ _).mp (Except.ok.inj hs')).2.symm ▸ rfl
      · -- truthy: the messageCode lookup runs
        cases hget : (respOf decoded).getInt "messageCode" with
        | error e =>
          have hv : valid_login now decoded s = .error e := by
            simp [valid_login, h1, h2, htr, hget]
          constructor
          · constructor
            · rintro ⟨s', hs'⟩
              rw [hv] at hs'
              exact Except.noConfusion hs'
            · rintro ⟨-, -, h200⟩
              rw [validSession200_iff] at h200
              rw [h200.2] at hget
              exact Except.noConfusion hget
          · intro s' hs'
            rw [hv] at hs'
            exact absurd hs' (by simp)
        | ok n =>
          by_cases hn : n = 200
          · subst hn
            have hv : valid_login now decoded s =
                .ok (true, { s with apiCalls := s.apiCalls + 1 }) := by
              simp [valid_login, h1, h2, htr, hget]
            constructor
            · constructor
              · intro _
                exact ⟨h1, by simpa using h2, (validSession200_iff decoded).mpr ⟨htr, hget⟩⟩
              · intro _
                exact ⟨_, hv⟩
            · intro s' hs'
              rw [hv] at hs'
              exact absurd ((Prod.mk.injEq _ _ _ _).mp (Except.ok.inj hs')).1 (by simp)
          · have hv : valid_login now decoded s = .ok (false, reset s) := by
              simp [valid_login, h1, h2, htr, hget, hn]
            constructor
            · constructor
              · rintro ⟨s', hs'⟩
                rw [hv] at hs'
                exact absurd ((Prod.mk.injEq _ _ _ _).mp (Except.ok.inj hs')).1 (by simp)
              · rintro ⟨-, -, h200⟩
                rw [validSession200_iff] at h200
                rw [h200.2] at hget
                exact absurd (Except.ok.inj hget).symm hn
            · intro s' hs'
              rw [hv] at hs'
              exact ((Prod.mk.injEq _ _ _ _).mp (Except.ok.inj hs')).2.symm ▸ rfl
    · have hv : valid_login now decoded s = .ok (false, reset s) := by
        simp [valid_login, h2]
      constructor
      · rw [hv]
        constructor
        · rintro ⟨s', hs'⟩
          exact absurd ((Prod.mk.injEq _ _ _ _).mp (Except.ok.inj hs')).1 (by simp)
        · rintro ⟨-, hc, -⟩
          exact absurd (by simpa using hc) h2
      · intro s' hs'
        rw [hv] at hs'
        exact ((Prod.mk.injEq _ _ _ _).mp (Except.ok.inj hs')).2.symm ▸ rfl
  · have hv : valid_login now decoded s = .ok (false, reset s) := by
      simp [valid_login, h1]
    constructor
    · rw [hv]
      constructor
      · rintro ⟨s', hs'⟩
        exact absurd ((Prod.mk.injEq _ _ _ _).mp (Except.ok.inj hs')).1 (by simp)
      · rintro ⟨ht, -, -⟩
        exact absurd ht h1
    · intro s' hs'
      rw [hv] at hs'
      exact ((Prod.mk.injEq _ _ _ _).mp (Except.ok.inj hs')).2.symm ▸ rfl

/-- Witness for C3: a concrete 200 body yields `True`, a concrete
non-200 body yields `False` with the state reset. -/
theorem c3_valid_login_spec_witness :
    (∃ s', valid_login 3600 (some (.jobj [("messageCode", .jnum 200)])) st0 =
      .ok (true, s')) ∧
    (∀ s', valid_login 3600 (some (.jobj [("messageCode", .jnum 500)])) st0 =
      .ok (false, s') → s' = reset st0) :=
  ⟨((c3_valid_login_spec 3600 (some (.jobj [("messageCode", .jnum 200)])) st0).1).mpr
    ⟨by norm_num [st0], rfl, ⟨[("messageCode", .jnum 200)], rfl, rfl⟩⟩,
   fun s' h => (c3_valid_login_spec 3600 (some (.jobj [("messageCode", .jnum 500)])) st0).2 s' h⟩

/-! ## C4 — retry policy of the backoff wrapper -/

/-- The backoff wrapper never makes more attempts than `max_tries`. -/
theorem backoffRun_attempts_le (k : Nat) (script : List Attempt)
    (st : LoginState) (r : Except ApiError (Option Nat)) (stf : LoginState)
    (n : Nat) (h : backoffRun k script st = some (r, stf, n)) : n ≤ k := by
  induction k generalizing script st r stf n with
  | zero =>
    cases script with
    | nil => simp [backoffRun] at h
    | cons a rest => simp [backoffRun] at h
  | succ k ih =>
    cases script with
    | nil => simp [backoffRun] at h
    | cons a rest =>
      unfold backoffRun at h
      split at h
      · simp at h
        omega
      · split at h
        · split at h
          · rename_i heq _ _ _ _ hrec
            simp at h
            have := ih _ _ _ _ _ hrec
            omega
          · exact absurd h (by simp)
        · simp at h
          omega

/-- C4: four consecutive rate-limited responses (HTTP 429) followed by a
success yield the success result in exactly 5 attempts; any run of the
wrapper performs at most 5 attempts; a first attempt that returns
normally, or raises the non-retryable login error, propagates immediately
after a single attempt. -/
theorem c4_retry_spec (s : Nat) (a : Attempt) (st : LoginState)
    (rest rest2 : List Attempt) (hs : s < 400) :
    (∃ st', staticRequest
        ([Attempt.http 429, .http 429, .http 429, .http 429, .http s] ++ rest) st =
        some (.ok (some s), st', 5)) ∧
    (∀ script r stf n, staticRequest script st = some (r, stf, n) → n ≤ 5) ∧
    (∀ v st1, attemptOnce a st = (.ok v, st1) →
      staticRequest (a :: rest2) st = some (.ok v, st1, 1)) ∧
    (∀ st1, attemptOnce a st = (.error .loginError, st1) →
      staticRequest (a :: rest2) st = some (.error .loginError, st1, 1)) := by
  refine ⟨?_, ?_, ?_, ?_⟩
  · have h401 : s ≠ 401 := by omega
    have h429 : s ≠ 429 := by omega
    have h400 : ¬ 400 ≤ s := by omega
    refine ⟨{ st with apiCalls := st.apiCalls + 5 }, ?_⟩
    have e5 : st.apiCalls + 1 + 1 + 1 + 1 + 1 = st.apiCalls + 5 := by omega
    simp [staticRequest, backoffRun, attemptOnce, staticRequestOnce,
      ApiError.retryable, h401, h429, h400, e5]
  · intro script r stf n h
    exact backoffRun_attempts_le 5 script st r stf n h
  · intro v st1 hat
    simp [staticRequest, backoffRun, hat]
  · intro st1 hat
    simp [staticRequest, backoffRun, hat, ApiError.retryable]

/-- Witness for C4: the concrete script of four 429s then a 200 returns
the 200 response in 5 attempts; a lone 200 returns after 1 attempt; a
lone 401 propagates the login error after 1 attempt. -/
theorem c4_retry_spec_witness :
    (∃ st', staticRequest
        [Attempt.http 429, .http 429, .http 429, .http 429, .http 200] st0 =
        some (.ok (some 200), st', 5)) ∧
    staticRequest [Attempt.http 200] st0 =
      some (.ok (some 200), (staticRequestOnce 200 st0).2, 1) ∧
    staticRequest [Attempt.http 401] st0 =
      some (.error .loginError, (staticRequestOnce 401 st0).2, 1) := by
  refine ⟨?_, ?_, ?_⟩
  · have h := (c4_retry_spec 200 (.http 200) st0 [] [] (by omega)).1
    simpa using h
  · exact (c4_retry_spec 200 (.http 200) st0 [] [] (by omega)).2.2.1 (some 200)
      (staticRequestOnce 200 st0).2 rfl
  · exact (c4_retry_spec 200 (.http 401) st0 [] [] (by omega)).2.2.2
      (staticRequestOnce 401 st0).2 rfl

/-! ## C5 — `on_connect` -/

/-- C5: with reason code 0, `on_connect` subscribes to exactly
`wifielement/{deviceUuid}/status` at QoS 2 for each stored device, sets
the connected flag, and schedules the open-callback onto the owning loop
exactly when one is registered; with any nonzero reason code it
subscribes to nothing, schedules nothing, and leaves the whole state —
in particular the connected flag — unchanged. -/
theorem c5_on_connect_spec (rc : Nat) (st : MqttState) :
    (rc = 0 →
      (on_connect rc st).subscriptions =
        st.devices.map (fun d => ("wifielement/" ++ d.deviceUuid ++ "/status", 2)) ∧
      (on_connect rc st).state = { st with connected := true } ∧
      (on_connect rc st).openCallbackScheduled = st.openCallbackRegistered) ∧
    (rc ≠ 0 →
      (on_connect rc st).subscriptions = [] ∧
      (on_connect rc st).state = st ∧
      (on_connect rc st).openCallbackScheduled = false) := by
  constructor
  · intro h
    subst h
    exact ⟨rfl, rfl, rfl⟩
  · intro h
    simp [on_connect, h]

/-- Witness for C5: reason code 0 on two stored devices subscribes to the
two status topics at QoS 2 and connects; reason code 5 changes nothing. -/
theorem c5_on_connect_spec_witness :
    (on_connect 0 mqttSt0).subscriptions =
      [("wifielement/D1/status", 2), ("wifielement/D2/status", 2)] ∧
    (on_connect 0 mqttSt0).state.connected = true ∧
    (on_connect 0 mqttSt0).openCallbackScheduled = true ∧
    (on_connect 5 mqttSt0).subscriptions = [] ∧
    (on_connect 5 mqttSt0).state = mqttSt0 := by
  have h0 := (c5_on_connect_spec 0 mqttSt0).1 rfl
  have h5 := (c5_on_connect_spec 5 mqttSt0).2 (by omega)
  refine ⟨?_, ?_, ?_, h5.1, h5.2.1⟩
  · rw [h0.1]; rfl
  · rw [h0.2.1]
  · rw [h0.2.2]; rfl

/-! ## C6 — `on_message` parsing -/

/-- The value associated with the last payload element of a given `type`
(later elements overwrite earlier ones, as repeated dict assignment
does). -/
def lastTypeValue : List MsgElem → String → Option String
  | [], _ => none
  | e :: es, ty =>
    match lastTypeValue es ty with
    | some v => some v
    | none => if e.type = ty then some e.value else none

/-- Folding dict assignments over the payload looks up to the last
element of the queried type, falling back to the accumulator. -/
theorem foldl_dictInsert_dictGet (payload : List MsgElem)
    (acc : List (String × String)) (ty : String) :
    dictGet (payload.foldl (fun a e => dictInsert a e.type e.value) acc) ty =
      match lastTypeValue payload ty with
      | some v => some v
      | none => dictGet acc ty := by
  induction payload generalizing acc with
  | nil => rfl
  | cons e es ih =>
    simp only [List.foldl_cons, lastTypeValue]
    rw [ih]
    cases h : lastTypeValue es ty with
    | some v => rfl
    | none =>
      simp only
      rw [dictGet_dictInsert]
      by_cases hq : e.type = ty
      · simp [hq]
      · have hq2 : ¬ ty = e.type := fun hh => hq hh.symm
        simp [hq, hq2]

/-- C6: any message whose topic's first `/`-segment is not `wifielement`
is rejected with no parsing and no callback; otherwise (topic of the form
`wifielement/{deviceId}/...`, nonempty decoded payload) the message
parses to a single event whose id is the topic's second segment, whose
time is the first element's time, and whose attributes map each element
type to its (last) value, the message-callback being scheduled exactly
when one is registered. -/
theorem c6_on_message_spec (topic : String) (payload : List MsgElem)
    (st : MqttState) :
    ((pySplit topic '/').getD 0 "" ≠ "wifielement" →
      on_message topic payload st = .ok none) ∧
    (∀ devId restSegs first rest,
      pySplit topic '/' = "wifielement" :: devId :: restSegs →
      payload = first :: rest →
      ∃ ev, on_message topic payload st = .ok (some (ev, st.msgCallbackRegistered)) ∧
        ev.id = devId ∧ ev.time = first.time ∧
        ∀ ty, dictGet ev.attributes ty = lastTypeValue payload ty) := by
  constructor
  · intro h
    have hb : ((pySplit topic '/').getD 0 "" != "wifielement") = true :=
      bne_iff_ne.mpr h
    simp only [on_message, hb, if_true]
  · intro devId restSegs first rest hsplit hpay
    subst hpay
    refine ⟨{ id := devId, time := first.time,
              attributes :=
                (first :: rest).foldl (fun acc e => dictInsert acc e.type e.value) [] },
            ?_, rfl, rfl, ?_⟩
    · simp [on_message, hsplit]
    · intro ty
      rw [foldl_dictInsert_dictGet]
      cases h : lastTypeValue (first :: rest) ty with
      | some v => rfl
      | none => rfl

/-- Witness for C6: the spec's example — payload
`[{type:switch, value:"1", time:100}, {type:brightness, value:"50",
time:100}]` on topic `wifielement/D1/status` — parses to device `D1`,
time 100, attributes `switch → "1"`, `brightness → "50"`; and a topic
rooted elsewhere is rejected. -/
theorem c6_on_message_spec_witness :
    (∃ ev, on_message "wifielement/D1/status"
        [⟨"switch", "1", 100⟩, ⟨"brightness", "50", 100⟩] mqttSt0 =
        .ok (some (ev, true)) ∧
      ev.id = "D1" ∧ ev.time = 100 ∧
      dictGet ev.attributes "switch" = some "1" ∧
      dictGet ev.attributes "brightness" = some "50") ∧
    on_message "other/D1/status"
      [⟨"switch", "1", 100⟩, ⟨"brightness", "50", 100⟩] mqttSt0 = .ok none := by
  constructor
  · obtain ⟨ev, h1, h2, h3, h4⟩ :=
      (c6_on_message_spec "wifielement/D1/status"
        [⟨"switch", "1", 100⟩, ⟨"brightness", "50", 100⟩] mqttSt0).2
        "D1" ["status"] ⟨"switch", "1", 100⟩ [⟨"brightness", "50", 100⟩]
        (by decide) rfl
    exact ⟨ev, h1, h2, h3, (h4 "switch").trans rfl, (h4 "brightness").trans rfl⟩
  · exact (c6_on_message_spec "other/D1/status"
      [⟨"switch", "1", 100⟩, ⟨"brightness", "50", 100⟩] mqttSt0).1 (by decide)

/-! ## C9 — absence of `appserver`/`mqtt` before the first login -/

/-- A trace without `ret == 0` logins never touches the shared endpoint
dict: instance creation only appends to the instance list, and failed
logins change nothing. -/
theorem foldl_step_endpoints (es : List Event) (w : World)
    (h : noLoginSuccess es = true) :
    (es.foldl step w).endpoints = w.endpoints := by
  induction es generalizing w with
  | nil => rfl
  | cons e rest ih =>
    cases e with
    | create =>
      have hr : noLoginSuccess rest = true := by
        simpa [noLoginSuccess] using h
      simpa [step] using ih { w with loggedIn := w.loggedIn ++ [false] } hr
    | loginFail i =>
      have hr : noLoginSuccess rest = true := by
        simpa [noLoginSuccess] using h
      simpa [step] using ih w hr
    | loginSuccess i d =>
      simp [noLoginSuccess] at h

/-- C9 counterexample: because every instance's `_urls` aliases the
module-level `SENGLED_ENDPOINTS` dict, an instance created after another
instance's successful login already holds `appserver` and `mqtt` keys
before its own first successful login.  In the trace below, instance 1
has never completed a login (`loggedIn` entry `false`) yet its endpoint
map contains both keys — refuting the claim for that instance. -/
theorem c9_counterexample :
    (run [Event.create,
          .loginSuccess 0 (some (.jobj
            [("messageCode", .jnum 200),
             ("appServerAddr", .jstr "https://appserver.example"),
             ("inceptionAddr", .jstr "wss://mqtt.example"),
             ("mqttSslPort", .jnum 8883)])),
          .create]).loggedIn.getD 1 true = false ∧
    dictHasKey (instanceUrls (run [Event.create,
          .loginSuccess 0 (some (.jobj
            [("messageCode", .jnum 200),
             ("appServerAddr", .jstr "https://appserver.example"),
             ("inceptionAddr", .jstr "wss://mqtt.example"),
             ("mqttSslPort", .jnum 8883)])),
          .create]) 1) "appserver" = true ∧
    dictHasKey (instanceUrls (run [Event.create,
          .loginSuccess 0 (some (.jobj
            [("messageCode", .jnum 200),
             ("appServerAddr", .jstr "https://appserver.example"),
             ("inceptionAddr", .jstr "wss://mqtt.example"),
             ("mqttSslPort", .jnum 8883)])),
          .create]) 1) "mqtt" = true := by
  refine ⟨rfl, rfl, rfl⟩

/-- C9 amended: the shared endpoint map contains neither `appserver` nor
`mqtt` at any point before the first successful login of ANY instance in
the process completes — the keys are added only by the post-login
server-info merge, but since all instances alias the module-level dict,
an instance created later may see them before its own first login. -/
theorem c9_no_keys_before_first_login (es : List Event)
    (h : noLoginSuccess es = true) :
    dictHasKey (run es).endpoints "appserver" = false ∧
    dictHasKey (run es).endpoints "mqtt" = false := by
  have he : (run es).endpoints = SENGLED_ENDPOINTS :=
    foldl_step_endpoints es { endpoints := SENGLED_ENDPOINTS, loggedIn := [] } h
  rw [he]
  exact ⟨rfl, rfl⟩

/-- Witness for C9 (amended): a trace with one instance created and one
failed login attempt leaves both keys absent. -/
theorem c9_no_keys_before_first_login_witness :
    noLoginSuccess [Event.create, .loginFail 0] = true ∧
    dictHasKey (run [Event.create, .loginFail 0]).endpoints "appserver" = false ∧
    dictHasKey (run [Event.create, .loginFail 0]).endpoints "mqtt" = false :=
  ⟨rfl,
   (c9_no_keys_before_first_login [Event.create, .loginFail 0] rfl).1,
   (c9_no_keys_before_first_login [Event.create, .loginFail 0] rfl).2⟩

end SengledWifipy
